import Mathlib

/-!
Shallow embedding of the phone-relay bot (`src/bot.py`) of mfa354/WosapInput.

Python strings are modelled as Lean `String` viewed as its list of
characters (`String.data`); all Python string operations used by the bot
(strip, lower, isdigit filter, startswith, slicing, substring `in`) are
defined below over that list.  The model is faithful on the ASCII
fragment; Python's Unicode tables (`str.isdigit` also accepting
non-ASCII digit characters, `str.strip`/`str.lower` on non-ASCII
whitespace/letters) are outside the model.

The session dictionary `self.waiting_for_number` is a partial map
`Int → Option Bool` (absent key = `none`; `dict.get(k, False)` =
`(m k).getD false`).  The injected Telegram send primitive (the Delivery
Gateway) is modelled by its outcome for the one call a handler can make:
`none` = the send succeeds, `some e` = it raises an exception whose
`str(e)` is `e`.  Each handler returns the new session map, the list of
gateway calls it attempted, and the list of replies it sent back to the
originating sender.
-/

/-- Characters stripped by Python `str.strip()` (ASCII fragment). -/
def pyIsSpace (c : Char) : Bool :=
  c = ' ' || c = '\t' || c = '\n' || c = '\x0d' || c = '\x0b' || c = '\x0c'

/-- Python `text.strip()`. -/
def pyStrip (s : String) : String :=
  ⟨((s.data.dropWhile pyIsSpace).reverse.dropWhile pyIsSpace).reverse⟩

/-- Python `str.lower()` (ASCII fragment). -/
def pyLower (s : String) : String :=
  ⟨s.data.map Char.toLower⟩

/-- Python `pat in s` substring test. -/
def containsSub (s pat : String) : Bool :=
  s.data.tails.any (fun t => pat.data.isPrefixOf t)

/-- Python `s.startswith(pat)`. -/
def pyStartsWith (s pat : String) : Bool :=
  pat.data.isPrefixOf s.data

/-- Python `s[n:]`. -/
def pyDrop (s : String) (n : Nat) : String :=
  ⟨s.data.drop n⟩

/-- Python `"".join(filter(str.isdigit, s))` (bot.py lines 77 and 90),
the Normalizer's digit extraction. -/
def extractDigits (s : String) : String :=
  ⟨s.data.filter Char.isDigit⟩

/-- `PhoneBot.process_phone_number` (bot.py lines 75-80). -/
def process_phone_number (phone_number : String) : String :=
  let clean_number := extractDigits phone_number
  if pyStartsWith clean_number "62" then pyDrop clean_number 2
  else clean_number

/-- Modelled from the spec: `stripCountryPrefix(digits, prefix="62")` of
section 4.1 — if `digits` starts with `"62"`, the remainder, else
`digits` unchanged.  Named `stripCountryCode` here; used only to compare
the spec's decomposition against `process_phone_number`. -/
def stripCountryCode (digits : String) : String :=
  if pyStartsWith digits "62" then pyDrop digits 2 else digits

/-- Markdown code-span wrapping used by the bot when it forwards the
number (bot.py line 114): presentation markup around the payload. -/
def mdCode (s : String) : String := "`" ++ s ++ "`"

/-- Single-quote character, used in the help text. -/
def squote : String := String.singleton (Char.ofNat 39)

-- ===== Reply texts (verbatim from bot.py) =====

/-- Reply of `/start` (bot.py lines 68-73). -/
def startReplyMsg : String :=
  "🤖 *Bot Pengirim Nomor Telepon*\n\nSilakan masukkan nomor telepon (contoh: 62858578089187)\nBot akan mengirim nomor tanpa kode negara (62) ke akun tujuan."

/-- Reply when a free-text message arrives while not awaiting input
(bot.py line 86). -/
def startFirstMsg : String :=
  "Gunakan /start untuk memulai proses input nomor telepon."

/-- Validation-error reply when the text has no digit (bot.py 93-98). -/
def invalidInputMsg : String :=
  "❌ *Input tidak valid!*\n\nHarap masukkan nomor telepon yang valid (minimal satu angka).\nContoh: 62858578089187"

/-- Configuration-error reply when `TARGET_USER_ID` is unset
(bot.py 104-108). -/
def noTargetMsg : String :=
  "⚠️ *TARGET_USER_ID belum dikonfigurasi di ENV!*\n\nSet variabel lingkungan `TARGET_USER_ID` (angka) di Railway."

/-- Success confirmation (bot.py 117-123); embeds the stripped raw text
and the normalized number. -/
def successMsg (text processed_number : String) : String :=
  "✅ *Berhasil terkirim!*\n\nNomor asli: `" ++ text ++ "`\nNomor terkirim: `" ++ processed_number ++ "`\n\nMasukkan nomor lagi atau gunakan /start untuk memulai ulang."

/-- Unreachable-recipient guidance (bot.py 130-136). -/
def chatNotFoundMsg : String :=
  "❌ *Target chat tidak ditemukan!*\n\nUser tujuan belum pernah /start bot ini.\nMinta user tujuan untuk:\n1. Klik /start pada bot ini\n2. Kirim pesan apa saja ke bot"

/-- Blocked-by-recipient guidance (bot.py 138-142). -/
def blockedMsg : String :=
  "❌ *Bot diblokir oleh user tujuan!*\n\nUser tujuan telah memblokir bot ini.\nMinta user untuk unblock bot terlebih dahulu."

/-- No-permission guidance (bot.py 144-147). -/
def forbiddenMsg : String :=
  "❌ *Tidak ada izin mengirim pesan!*\n\nPastikan user tujuan sudah /start bot ini."

/-- Generic failure message embedding `str(e)` verbatim (bot.py 149-153). -/
def genericFailMsg (e : String) : String :=
  "❌ *Gagal mengirim pesan!*\n\nError: `" ++ e ++ "`\nSilakan coba lagi atau hubungi administrator."

/-- Static `/help` text (bot.py 158-173). -/
def helpText : String :=
  "🤖 *Bot Pengirim Nomor Telepon*\n\n*Cara Penggunaan:*\n1. Ketik /start untuk memulai\n2. Masukkan nomor telepon (contoh: 62858578089187)\n3. Bot akan mengirim nomor tanpa kode " ++ squote ++ "62" ++ squote ++ " ke akun tujuan\n4. Ulangi langkah 2 untuk nomor berikutnya\n\n*Perintah yang tersedia:*\n/start - Mulai proses input nomor\n/help - Tampilkan bantuan ini\n/myid - Lihat Chat ID Anda\n/test - Test koneksi ke target user\n\n*Contoh:*\nInput: `62858578089187`\nOutput: `858578089187`"

/-- Configuration warning of `/test` when `TARGET_USER_ID` is unset
(bot.py 193-197). -/
def testNoTargetMsg : String :=
  "⚠️ *TARGET_USER_ID belum dikonfigurasi di ENV!*\nSet `TARGET_USER_ID` di Railway, lalu coba lagi."

/-- Text sent to the recipient by `/test` (bot.py 203). -/
def testPingText : String := "🔄 Test koneksi dari bot"

/-- Success reply of `/test` (bot.py 205-208). -/
def testOkMsg : String :=
  "✅ *Test berhasil!*\n\nBot berhasil mengirim pesan ke target user."

/-- Failure reply of `/test` (bot.py 212-220); a fixed template
embedding `str(e)`, not produced by the error classifier. -/
def testFailMsg (e : String) : String :=
  "❌ *Test gagal!*\n\nError: `" ++ e ++ "`\n\n*Solusi:*\n1. Pastikan target user sudah /start bot ini\n2. Cek Chat ID target user dengan /myid\n3. Pastikan bot tidak diblokir target user"

/-- Reply of `/myid` (bot.py 181-189). -/
def myidMsg (user_id : Int) (username first_name : String)
    (target : Option Int) : String :=
  "👤 *Info Akun Anda:*\n\nChat ID: `" ++ toString user_id ++ "`\nUsername: @" ++ username ++ "\nNama: " ++ first_name ++ "\n\nTarget saat ini: " ++
    (match target with
     | some t => "`" ++ toString t ++ "`"
     | none => "_(belum diset)_")

-- ===== Error classifier =====

/-- The error classifier of `handle_message`'s except-branch
(bot.py 125-155): lowercase `str(e)`, then case-split by substring in
priority order; the generic branch embeds the original `str(e)`. -/
def classify_error (e : String) : String :=
  let error_msg := pyLower e
  if containsSub error_msg "chat not found" then chatNotFoundMsg
  else if containsSub error_msg "blocked" then blockedMsg
  else if containsSub error_msg "forbidden" then forbiddenMsg
  else genericFailMsg e

-- ===== Handlers =====

/-- One attempted Delivery Gateway call: `context.bot.send_message`
with a chat id and a text. -/
structure GatewayCall where
  chat_id : Int
  text : String
  deriving DecidableEq, Repr

/-- Result of running one handler: the session map afterwards, the
gateway calls attempted, the replies sent to the originating sender. -/
structure HandlerResult where
  store : Int → Option Bool
  calls : List GatewayCall
  replies : List String

/-- The session map after `PhoneBot.start` sets
`self.waiting_for_number[user_id] = True` (bot.py line 66). -/
def startStore (store : Int → Option Bool) (user_id : Int) :
    Int → Option Bool :=
  fun u => if u = user_id then some true else store u

/-- `PhoneBot.start` (bot.py 64-73). -/
def start (store : Int → Option Bool) (user_id : Int) : HandlerResult :=
  { store := startStore store user_id
    calls := []
    replies := [startReplyMsg] }

/-- `PhoneBot.handle_message` (bot.py 82-155).  `target` is
`TARGET_USER_ID`; `gwFail` is the injected gateway outcome for the one
send the handler can attempt (`none` = success, `some e` = exception
with description `e`). -/
def handle_message (target : Option Int) (gwFail : Option String)
    (store : Int → Option Bool) (user_id : Int) (rawText : String) :
    HandlerResult :=
  if (store user_id).getD false = false then
    { store := store, calls := [], replies := [startFirstMsg] }
  else
    let text := pyStrip rawText
    let digits_only := extractDigits text
    if digits_only = "" then
      { store := store, calls := [], replies := [invalidInputMsg] }
    else
      let processed_number := process_phone_number text
      match target with
      | none =>
        { store := store, calls := [], replies := [noTargetMsg] }
      | some t =>
        match gwFail with
        | none =>
          { store := store
            calls := [⟨t, mdCode processed_number⟩]
            replies := [successMsg text processed_number] }
        | some e =>
          { store := store
            calls := [⟨t, mdCode processed_number⟩]
            replies := [classify_error e] }

/-- `PhoneBot.help_command` (bot.py 157-174). -/
def help_command (store : Int → Option Bool) (_user_id : Int) :
    HandlerResult :=
  { store := store, calls := [], replies := [helpText] }

/-- `PhoneBot.get_my_id` (bot.py 176-189); the username and first-name
fall back to fixed markers when absent. -/
def get_my_id (target : Option Int) (store : Int → Option Bool)
    (user_id : Int) (username first_name : Option String) :
    HandlerResult :=
  { store := store
    calls := []
    replies := [myidMsg user_id (username.getD "Tidak ada username")
      (first_name.getD "Tidak ada nama") target] }

/-- `PhoneBot.test_connection` (bot.py 191-220). -/
def test_connection (target : Option Int) (gwFail : Option String)
    (store : Int → Option Bool) (_user_id : Int) : HandlerResult :=
  match target with
  | none =>
    { store := store, calls := [], replies := [testNoTargetMsg] }
  | some t =>
    match gwFail with
    | none =>
      { store := store
        calls := [⟨t, testPingText⟩]
        replies := [testOkMsg] }
    | some e =>
      { store := store
        calls := [⟨t, testPingText⟩]
        replies := [testFailMsg e] }

-- ===== Events and reachable session states =====

/-- One inbound event, tagged with its sender and, where the handler can
touch the gateway, the injected gateway outcome. -/
inductive Event where
  | start (sender : Int)
  | message (sender : Int) (text : String) (gwFail : Option String)
  | help (sender : Int)
  | myid (sender : Int) (username first_name : Option String)
  | test (sender : Int) (gwFail : Option String)

/-- The session map after dispatching one event. -/
def applyEvent (target : Option Int) (e : Event)
    (store : Int → Option Bool) : Int → Option Bool :=
  match e with
  | .start s => (start store s).store
  | .message s t g => (handle_message target g store s t).store
  | .help s => (help_command store s).store
  | .myid s u f => (get_my_id target store s u f).store
  | .test s g => (test_connection target g store s).store

/-- The empty session map the bot starts with (bot.py line 62). -/
def initStore : Int → Option Bool := fun _ => none

/-- Session maps reachable from the empty map by dispatching events. -/
inductive Reachable (target : Option Int) : (Int → Option Bool) → Prop
  | init : Reachable target initStore
  | step (st : Int → Option Bool) (e : Event) :
      Reachable target st → Reachable target (applyEvent target e st)

-- ===== Helper lemmas =====

/-- Substring test agrees with the list infix relation. -/
theorem containsSub_infixP (s pat : String) :
    containsSub s pat = true ↔ pat.data <:+: s.data := by
  unfold containsSub
  rw [List.any_eq_true, List.infix_iff_prefix_suffix]
  constructor
  · rintro ⟨t, ht, hp⟩
    exact ⟨t, List.isPrefixOf_iff_prefix.mp hp, (List.mem_tails _ _).mp ht⟩
  · rintro ⟨t, hp, ht⟩
    exact ⟨t, (List.mem_tails _ _).mpr ht, List.isPrefixOf_iff_prefix.mpr hp⟩

/-- A string occurs as a substring of any concatenation around it. -/
theorem containsSub_append_middle (a x b : String) :
    containsSub (a ++ x ++ b) x = true := by
  rw [containsSub_infixP]
  have : (a ++ x ++ b).data = a.data ++ x.data ++ b.data := by
    rw [String.data_append, String.data_append]
  rw [this]
  exact List.infix_append a.data x.data b.data

/-- The generic failure message embeds the failure description. -/
theorem genericFailMsg_embeds (e : String) :
    containsSub (genericFailMsg e) e = true := by
  unfold genericFailMsg
  exact containsSub_append_middle _ e _

/-- The test-failure template embeds the failure description. -/
theorem testFailMsg_embeds (e : String) :
    containsSub (testFailMsg e) e = true := by
  unfold testFailMsg
  exact containsSub_append_middle _ e _

/-- `handle_message` never writes the session map: every branch returns
the store it was given. -/
theorem hm_store (target : Option Int) (gwFail : Option String)
    (store : Int → Option Bool) (sender : Int) (text : String) :
    (handle_message target gwFail store sender text).store = store := by
  unfold handle_message
  dsimp only
  repeat' split
  all_goals rfl

/-- `test_connection` never writes the session map. -/
theorem tc_store (target : Option Int) (gwFail : Option String)
    (store : Int → Option Bool) (sender : Int) :
    (test_connection target gwFail store sender).store = store := by
  cases target with
  | none => rfl
  | some t => cases gwFail <;> rfl

/-- Reachable session maps bind every present key to `true`. -/
theorem reachable_values_true (target : Option Int)
    (st : Int → Option Bool) (h : Reachable target st) :
    ∀ u : Int, st u = none ∨ st u = some true := by
  induction h with
  | init => intro u; exact Or.inl rfl
  | step st' e _ ih =>
    intro u
    cases e with
    | start s =>
      show startStore st' s u = none ∨ startStore st' s u = some true
      unfold startStore
      split
      · exact Or.inr rfl
      · exact ih u
    | message s t g =>
      rw [show applyEvent target (.message s t g) st'
            = (handle_message target g st' s t).store from rfl, hm_store]
      exact ih u
    | help s => exact ih u
    | myid s un fn => exact ih u
    | test s g =>
      rw [show applyEvent target (.test s g) st'
            = (test_connection target g st' s).store from rfl, tc_store]
      exact ih u

-- ===== Claim theorems =====

/-- Claim C1: for a sender the bot is awaiting input from, with a
recipient `t` configured and a succeeding gateway, submitting
`"62123456"` attempts exactly one gateway call addressed to `t` carrying
the normalized number `"123456"` (in the bot's code-span markup, the
presentation wrapper of bot.py line 114) and sends exactly one success
reply embedding both the raw input `"62123456"` and the normalized value
`"123456"`. -/
theorem awaiting_success_delivery (store : Int → Option Bool)
    (sender t : Int) (h : (store sender).getD false = true) :
    handle_message (some t) none store sender "62123456" =
      { store := store
        calls := [⟨t, mdCode "123456"⟩]
        replies := [successMsg "62123456" "123456"] }
    ∧ containsSub (successMsg "62123456" "123456") "62123456" = true
    ∧ containsSub (successMsg "62123456" "123456") "123456" = true := by
  refine ⟨?_, by decide, by decide⟩
  unfold handle_message
  rw [h]
  rfl

/-- Witness for C1 at a concrete awaiting sender and recipient. -/
theorem awaiting_success_delivery_witness :
    ((startStore initStore 9) 9).getD false = true
    ∧ handle_message (some 7) none (startStore initStore 9) 9 "62123456" =
        { store := startStore initStore 9
          calls := [⟨7, mdCode "123456"⟩]
          replies := [successMsg "62123456" "123456"] } :=
  ⟨by decide,
   (awaiting_success_delivery (startStore initStore 9) 9 7 (by decide)).1⟩

/-- Claim C2: the error classifier is a pure function into exactly four
messages, selected by case-insensitive substring match in priority order
chat-not-found, blocked, forbidden, generic; the generic message embeds
the original description verbatim. -/
theorem classify_error_correct (e : String) :
    (classify_error e = chatNotFoundMsg ∨ classify_error e = blockedMsg ∨
      classify_error e = forbiddenMsg ∨ classify_error e = genericFailMsg e)
    ∧ (containsSub (pyLower e) "chat not found" = true →
        classify_error e = chatNotFoundMsg)
    ∧ (containsSub (pyLower e) "chat not found" = false →
        containsSub (pyLower e) "blocked" = true →
        classify_error e = blockedMsg)
    ∧ (containsSub (pyLower e) "chat not found" = false →
        containsSub (pyLower e) "blocked" = false →
        containsSub (pyLower e) "forbidden" = true →
        classify_error e = forbiddenMsg)
    ∧ (containsSub (pyLower e) "chat not found" = false →
        containsSub (pyLower e) "blocked" = false →
        containsSub (pyLower e) "forbidden" = false →
        classify_error e = genericFailMsg e)
    ∧ containsSub (genericFailMsg e) e = true := by
  unfold classify_error
  refine ⟨?_, ?_, ?_, ?_, ?_, genericFailMsg_embeds e⟩
  · dsimp only
    split
    · exact Or.inl rfl
    · split
      · exact Or.inr (Or.inl rfl)
      · split
        · exact Or.inr (Or.inr (Or.inl rfl))
        · exact Or.inr (Or.inr (Or.inr rfl))
  · intro h1; simp [h1]
  · intro h1 h2; simp [h1, h2]
  · intro h1 h2 h3; simp [h1, h2, h3]
  · intro h1 h2 h3; simp [h1, h2, h3]

/-- Witness for C2: a mixed-case description hits the first branch. -/
theorem classify_error_correct_witness :
    containsSub (pyLower "Chat Not Found") "chat not found" = true
    ∧ classify_error "Chat Not Found" = chatNotFoundMsg :=
  ⟨by decide, (classify_error_correct "Chat Not Found").2.1 (by decide)⟩

/-- Claim C3: `process_phone_number` is the spec's
strip-country-code-after-extract-digits composition — the remainder
after `"62"` when the digits-only form starts with it, the digits-only
form unchanged otherwise — a total function on strings (it always
returns a string, possibly empty), with the spec's three sample
values. -/
theorem process_phone_number_correct (s : String) :
    process_phone_number s = stripCountryCode (extractDigits s)
    ∧ process_phone_number s =
        (if pyStartsWith (extractDigits s) "62"
         then pyDrop (extractDigits s) 2 else extractDigits s)
    ∧ process_phone_number "62858578089187" = "858578089187"
    ∧ process_phone_number "0858578089187" = "0858578089187"
    ∧ process_phone_number "abc" = "" :=
  ⟨rfl, rfl, by decide, by decide, by decide⟩

/-- Claim C4: once a sender is awaiting input, it stays awaiting after
every subsequent operation — `handle_message` on all its branches,
repeated `/start`, and the other handlers never reset it. -/
theorem awaiting_never_reset (target : Option Int) (e : Event)
    (st : Int → Option Bool) (u : Int)
    (h : (st u).getD false = true) :
    (applyEvent target e st u).getD false = true := by
  cases e with
  | start s =>
    show ((startStore st s) u).getD false = true
    unfold startStore
    split
    · rfl
    · exact h
  | message s t g =>
    rw [show applyEvent target (.message s t g) st
          = (handle_message target g st s t).store from rfl, hm_store]
    exact h
  | help s => exact h
  | myid s un fn => exact h
  | test s g =>
    rw [show applyEvent target (.test s g) st
          = (test_connection target g st s).store from rfl, tc_store]
    exact h

/-- Witness for C4: an awaiting sender stays awaiting across a
digit-free message event. -/
theorem awaiting_never_reset_witness :
    ((startStore initStore 5) 5).getD false = true
    ∧ (applyEvent none (.message 5 "no digits here" none)
        (startStore initStore 5) 5).getD false = true :=
  ⟨by decide,
   awaiting_never_reset none (.message 5 "no digits here" none)
     (startStore initStore 5) 5 (by decide)⟩

/-- Claim C5: for an awaiting sender whose message has at least one
digit, with no recipient configured, `handle_message` replies with the
configuration-error message, attempts no gateway call, and leaves the
session map unchanged. -/
theorem no_recipient_no_send (gwFail : Option String)
    (store : Int → Option Bool) (sender : Int) (text : String)
    (h : (store sender).getD false = true)
    (hd : extractDigits (pyStrip text) ≠ "") :
    handle_message none gwFail store sender text =
      { store := store, calls := [], replies := [noTargetMsg] } := by
  unfold handle_message
  rw [h]
  rw [if_neg (by simp : ¬(true = false))]
  dsimp only
  rw [if_neg hd]

/-- Witness for C5 at a concrete awaiting sender and digit input. -/
theorem no_recipient_no_send_witness :
    ((startStore initStore 3) 3).getD false = true
    ∧ extractDigits (pyStrip "62123") ≠ ""
    ∧ handle_message none none (startStore initStore 3) 3 "62123" =
        { store := startStore initStore 3
          calls := []
          replies := [noTargetMsg] } :=
  ⟨by decide, by decide,
   no_recipient_no_send none (startStore initStore 3) 3 "62123"
     (by decide) (by decide)⟩

/-- Counterexample for C6 as stated: on a gateway failure with
description `"Chat not found"`, `test_connection`'s reply is not the
error classifier's message for that description (the classifier yields
the unreachable-recipient guidance; `/test` replies with its own fixed
template). -/
theorem test_connection_not_classifier :
    (test_connection (some 1) (some "Chat not found") initStore 0).replies
      ≠ [classify_error "Chat not found"] := by decide

/-- Claim C6 (amended): `test_connection` with no recipient configured
replies with the configuration warning and attempts no gateway call;
with a recipient configured it attempts exactly one delivery, and on a
failure its reply is the fixed test-failure template, which embeds the
raw failure description verbatim. -/
theorem test_connection_correct (store : Int → Option Bool)
    (sender t : Int) (e : String) (gwFail : Option String) :
    test_connection none gwFail store sender =
      { store := store, calls := [], replies := [testNoTargetMsg] }
    ∧ (test_connection (some t) gwFail store sender).calls
        = [⟨t, testPingText⟩]
    ∧ (test_connection (some t) (some e) store sender).replies
        = [testFailMsg e]
    ∧ containsSub (testFailMsg e) e = true := by
  refine ⟨rfl, ?_, rfl, testFailMsg_embeds e⟩
  cases gwFail <;> rfl

/-- Claim C7: digit extraction keeps exactly the decimal digits of its
input in order (a sublist of the input), drops every non-digit, and
yields the empty string when the input has no digit. -/
theorem extractDigits_correct (s : String) :
    (∀ c ∈ (extractDigits s).data, c.isDigit = true)
    ∧ List.Sublist (extractDigits s).data s.data
    ∧ (∀ c : Char, c.isDigit = true →
        (extractDigits s).data.count c = s.data.count c)
    ∧ (∀ c : Char, c.isDigit = false →
        (extractDigits s).data.count c = 0)
    ∧ ((∀ c ∈ s.data, c.isDigit = false) → extractDigits s = "") := by
  refine ⟨?_, List.filter_sublist s.data, ?_, ?_, ?_⟩
  · intro c hc
    exact (List.mem_filter.mp hc).2
  · intro c hc
    exact List.count_filter hc
  · intro c hc
    rw [List.count_eq_zero]
    intro hmem
    rw [(List.mem_filter.mp hmem).2] at hc
    cases hc
  · intro hall
    have hnil : s.data.filter Char.isDigit = [] := by
      rw [List.filter_eq_nil_iff]
      intro c hc
      simp [hall c hc]
    show (⟨s.data.filter Char.isDigit⟩ : String) = ""
    rw [hnil]

/-- Witness for C7: `"abc"` holds no digit and extracts to the empty
string, and the digit-count clauses hold at a digit and a letter. -/
theorem extractDigits_correct_witness :
    (∀ c ∈ ("abc" : String).data, c.isDigit = false)
    ∧ extractDigits "abc" = ""
    ∧ (extractDigits "a1b2").data.count '1' = ("a1b2" : String).data.count '1'
    ∧ (extractDigits "a1b2").data.count 'a' = 0 :=
  ⟨by decide, (extractDigits_correct "abc").2.2.2.2 (by decide),
   (extractDigits_correct "a1b2").2.2.1 '1' (by decide),
   (extractDigits_correct "a1b2").2.2.2.1 'a' (by decide)⟩

/-- Claim C8: for a sender whose session is absent or `False`
(absent key equivalent to false), any free-text message is answered with
the start-first instruction, no delivery is attempted, and the session
map is left unchanged. -/
theorem idle_requires_start (target : Option Int) (gwFail : Option String)
    (store : Int → Option Bool) (sender : Int) (text : String)
    (h : store sender = none ∨ store sender = some false) :
    handle_message target gwFail store sender text =
      { store := store, calls := [], replies := [startFirstMsg] } := by
  have h' : (store sender).getD false = false := by
    cases h with
    | inl h0 => rw [h0]; rfl
    | inr h0 => rw [h0]; rfl
  unfold handle_message
  rw [h']
  rfl

/-- Witness for C8 at a sender with no session entry at all. -/
theorem idle_requires_start_witness :
    (initStore 0 = none ∨ initStore 0 = some false)
    ∧ handle_message none none initStore 0 "halo 628123" =
        { store := initStore, calls := [], replies := [startFirstMsg] } :=
  ⟨Or.inl rfl,
   idle_requires_start none none initStore 0 "halo 628123" (Or.inl rfl)⟩

/-- Claim C9: digit extraction is idempotent. -/
theorem extractDigits_idempotent (s : String) :
    extractDigits (extractDigits s) = extractDigits s := by
  show (⟨(s.data.filter Char.isDigit).filter Char.isDigit⟩ : String)
      = ⟨s.data.filter Char.isDigit⟩
  rw [List.filter_filter]
  simp

/-- Claim C10: in every reachable session map each present key holds
`true` (presence coincides with awaiting-input), because `start` is the
only writer and always writes `true`; `handle_message`, `help_command`,
`get_my_id` and `test_connection` return the store untouched. -/
theorem session_store_invariant (target : Option Int)
    (st : Int → Option Bool) (h : Reachable target st) :
    (∀ u : Int, st u ≠ some false
      ∧ ((st u).isSome ↔ (st u).getD false = true))
    ∧ (∀ gwFail sender text,
        (handle_message target gwFail st sender text).store = st)
    ∧ (∀ sender, (help_command st sender).store = st)
    ∧ (∀ sender username first_name,
        (get_my_id target st sender username first_name).store = st)
    ∧ (∀ gwFail sender,
        (test_connection target gwFail st sender).store = st) := by
  refine ⟨?_, fun g s t => hm_store target g st s t, fun s => rfl,
    fun s un fn => rfl, fun g s => tc_store target g st s⟩
  intro u
  rcases reachable_values_true target st h u with h1 | h1 <;> rw [h1] <;> simp

/-- Witness for C10 at the initial (empty) session map, which is
reachable. -/
theorem session_store_invariant_witness :
    initStore 0 ≠ some false
    ∧ (handle_message none none initStore 1 "x").store = initStore :=
  ⟨((session_store_invariant none initStore Reachable.init).1 0).1,
   (session_store_invariant none initStore Reachable.init).2.1 none 1 "x"⟩
